import Mathlib

/-!
Identifier carrier and logging facade of go-datadog-observability.

A shallow embedding of `context/gin/context.go` and `logger/zap/logger.go`.

* Go's `context.Context` is a chain of layers; `Context.Value` walks the chain
  from the newest layer to the root, as `context.valueCtx.Value` does.
* Keys and values of the chain are Go interface values (`any`): a dynamic type
  together with a value.  Two keys are equal only when both agree.
* `uint64` values are natural numbers; the bound `2 ^ 64` is stated where a
  conversion makes it matter (`zap.Uint64` stores the value as an `int64`).
-/

namespace GoDatadog

/-! ## Go interface values -/

/-- A context key as an interface value: the dynamic type and the value.
`ctxKey` is the unexported string type declared in `context.go`; `string` is
the built-in string type; `other` stands for keys of any further type. -/
inductive Key where
  | ctxKey (s : String)
  | string (s : String)
  | other (tag : Nat)
  deriving DecidableEq, Repr

/-- A value of type `any` as stored in a context or in the per-request store. -/
inductive Any where
  | uint64 (n : Nat)
  | int (n : Int)
  | string (s : String)
  | bool (b : Bool)
  | nil
  deriving DecidableEq, Repr

/-- The type assertion `v.(uint64)` in its two-result form: the value and `true`
when the dynamic type is `uint64`, the zero value and `false` otherwise. -/
def assertUint64 : Any → Nat × Bool
  | .uint64 n => (n, true)
  | _ => (0, false)

/-! ## The standard library context chain -/

/-- A `context.Context`: the empty root, a value layer made by
`context.WithValue`, or a cancellation layer (which stores no user key). -/
inductive Context where
  | background
  | withValue (parent : Context) (key : Key) (val : Any)
  | withCancel (parent : Context)
  deriving DecidableEq, Repr

/-- The method `ctx.Value(key)`: the value of the newest layer holding `key`,
or `nil` when the chain ends without one. -/
def Context.Value : Context → Key → Any
  | .background, _ => .nil
  | .withValue parent k v, key => if k = key then v else parent.Value key
  | .withCancel parent, key => parent.Value key

/-- Whether some layer of the chain was stored under `key`. -/
def Context.hasKey : Context → Key → Bool
  | .background, _ => false
  | .withValue parent k _, key => decide (k = key) || parent.hasKey key
  | .withCancel parent, key => parent.hasKey key

/-! ## `context/gin/context.go` -/

/-- The constant `datadogSpanID ctxKey = "dd.span_id"`. -/
def datadogSpanID : Key := .ctxKey "dd.span_id"

/-- The constant `datadogTraceID ctxKey = "dd.trace_id"`. -/
def datadogTraceID : Key := .ctxKey "dd.trace_id"

/-- Function `WithDatadogSpanId` sets the Datadog span ID in the context. -/
def WithDatadogSpanId (ctx : Context) (spanID : Nat) : Context :=
  .withValue ctx datadogSpanID (.uint64 spanID)

/-- Function `SpanID`: the source reads `ctx.Value(datadogTraceID).(uint64)`. -/
def SpanID (ctx : Context) : Nat × Bool :=
  assertUint64 (ctx.Value datadogTraceID)

/-- Function `WithDatadogTraceId` sets the Datadog trace ID in the context. -/
def WithDatadogTraceId (ctx : Context) (traceID : Nat) : Context :=
  .withValue ctx datadogTraceID (.uint64 traceID)

/-- Function `TraceID`: the source reads `ctx.Value(datadogTraceID).(uint64)`. -/
def TraceID (ctx : Context) : Nat × Bool :=
  assertUint64 (ctx.Value datadogTraceID)

/-- The part of `*gin.Context` the adapter reads: the context of the request
(`c.Request.Context()`) and the per-request key-value store (`c.Keys`). -/
structure GinContext where
  Request : Context
  Keys : List (String × Any)
  deriving DecidableEq, Repr

/-- Method `c.Get(key)`: the stored value, if the key exists. -/
def GinContext.Get (c : GinContext) (key : String) : Option Any :=
  c.Keys.lookup key

/-- Method `c.GetUint64(key)`: the stored value when it exists and is a `uint64`,
zero otherwise. -/
def GinContext.GetUint64 (c : GinContext) (key : String) : Nat :=
  match c.Get key with
  | some v => (assertUint64 v).1
  | none => 0

/-- Function `GinNewContextWithObservability` derives the context of a request. -/
def GinNewContextWithObservability (c : GinContext) : Context :=
  let ctx := c.Request
  let ddSpanID := c.GetUint64 "dd.span_id"
  let ddTraceID := c.GetUint64 "dd.trace_id"
  let ctx := if ddSpanID ≠ 0 then WithDatadogSpanId ctx ddSpanID else ctx
  let ctx := if ddTraceID ≠ 0 then WithDatadogTraceId ctx ddTraceID else ctx
  ctx

/-! ## `logger/zap/logger.go` -/

/-- The conversion `int64(v)` of a `uint64`. -/
def toInt64 (v : Nat) : Int :=
  if v % 2 ^ 64 < 2 ^ 63 then ((v % 2 ^ 64 : Nat) : Int)
  else ((v % 2 ^ 64 : Nat) : Int) - 2 ^ 64

/-- The conversion `uint64(i)` of an `int64`. -/
def toUint64 (i : Int) : Nat := (i % 2 ^ 64).toNat

/-- The field types of the backend that this development distinguishes. -/
inductive FieldType where
  | UnknownType
  | BoolType
  | Int64Type
  | StringType
  | Uint64Type
  deriving DecidableEq, Repr

/-- A structured field of the backend (`zap.Field`). -/
structure Field where
  Key : String
  Type_ : FieldType
  Integer : Int
  String_ : String
  deriving DecidableEq, Repr

/-- The constructor `zap.Uint64(key, val)`. -/
def zapUint64 (key : String) (val : Nat) : Field :=
  { Key := key, Type_ := .Uint64Type, Integer := toInt64 val, String_ := "" }

/-- The unsigned integer a field holds, as the encoder reads it back
(`uint64(f.Integer)` for a field of type `Uint64Type`). -/
def Field.uint64Value (f : Field) : Option Nat :=
  if f.Type_ = .Uint64Type then some (toUint64 f.Integer) else none

/-- Function `setContextFields` appends the Datadog trace and span id to the fields. -/
def setContextFields (ctx : Context) (fields : List Field) : List Field :=
  let (traceID, ok) := TraceID ctx
  let fields := if ok then fields ++ [zapUint64 "dd.trace_id" traceID] else fields
  let (spanID, ok) := SpanID ctx
  let fields := if ok then fields ++ [zapUint64 "dd.span_id" spanID] else fields
  fields

/-- The six severity methods of the backend logger. -/
inductive Level where
  | Info
  | Warn
  | Debug
  | Error
  | Panic
  | Fatal
  deriving DecidableEq, Repr

/-- A call delegated to the backend: the method, the message and the fields. -/
structure BackendCall where
  method : Level
  msg : String
  fields : List Field
  deriving DecidableEq, Repr

/-- Method `Logger.Info`: enrich, then call `l.logger.Info(msg, fields...)`. -/
def Logger.Info (ctx : Context) (msg : String) (fields : List Field) : BackendCall :=
  let fields := setContextFields ctx fields
  { method := .Info, msg := msg, fields := fields }

/-- Method `Logger.Warn`: enrich, then call `l.logger.Warn(msg, fields...)`. -/
def Logger.Warn (ctx : Context) (msg : String) (fields : List Field) : BackendCall :=
  let fields := setContextFields ctx fields
  { method := .Warn, msg := msg, fields := fields }

/-- Method `Logger.Debug`: enrich, then call `l.logger.Debug(msg, fields...)`. -/
def Logger.Debug (ctx : Context) (msg : String) (fields : List Field) : BackendCall :=
  let fields := setContextFields ctx fields
  { method := .Debug, msg := msg, fields := fields }

/-- Method `Logger.Error`: enrich, then call `l.logger.Error(msg, fields...)`. -/
def Logger.Error (ctx : Context) (msg : String) (fields : List Field) : BackendCall :=
  let fields := setContextFields ctx fields
  { method := .Error, msg := msg, fields := fields }

/-- Method `Logger.Panic`: enrich, then call `l.logger.Panic(msg, fields...)`. -/
def Logger.Panic (ctx : Context) (msg : String) (fields : List Field) : BackendCall :=
  let fields := setContextFields ctx fields
  { method := .Panic, msg := msg, fields := fields }

/-- Method `Logger.Fatal`: enrich, then call `l.logger.Fatal(msg, fields...)`. -/
def Logger.Fatal (ctx : Context) (msg : String) (fields : List Field) : BackendCall :=
  let fields := setContextFields ctx fields
  { method := .Fatal, msg := msg, fields := fields }

/-- The value layers of a context chain, newest first. -/
def Context.layers : Context → List (Key × Any)
  | .background => []
  | .withValue parent k v => (k, v) :: parent.layers
  | .withCancel parent => parent.layers

/-- The per-request store holds no value under `key`, or holds exactly zero. -/
def GinContext.absentOrZero (c : GinContext) (key : String) : Prop :=
  c.Get key = none ∨ c.Get key = some (.uint64 0)

instance (c : GinContext) (key : String) : Decidable (c.absentOrZero key) := by
  unfold GinContext.absentOrZero
  exact inferInstance

/-- The six severity operations of the facade, in the order of `ILogger`. -/
def severityOps : List (Context → String → List Field → BackendCall) :=
  [Logger.Info, Logger.Warn, Logger.Debug, Logger.Error, Logger.Panic, Logger.Fatal]

/-! ## Shared lemmas -/

theorem Value_eq_nil_of_hasKey_false (ctx : Context) (key : Key)
    (h : ctx.hasKey key = false) : ctx.Value key = .nil := by
  induction ctx with
  | background => rfl
  | withValue parent k v ih =>
    simp only [Context.hasKey, Bool.or_eq_false_iff, decide_eq_false_iff_not] at h
    simp [Context.Value, h.1, ih h.2]
  | withCancel parent ih =>
    simpa [Context.Value] using ih (by simpa [Context.hasKey] using h)

theorem datadogSpanID_ne_datadogTraceID : datadogSpanID ≠ datadogTraceID := by decide

theorem GetUint64_eq_zero_of_absentOrZero (c : GinContext) (key : String)
    (h : c.absentOrZero key) : c.GetUint64 key = 0 := by
  rcases h with h | h <;> simp [GinContext.GetUint64, h, assertUint64]

theorem setContextFields_cases (ctx : Context) (fs : List Field) :
    (TraceID ctx).2 = false ∧ setContextFields ctx fs = fs ∨
    (TraceID ctx).2 = true ∧ setContextFields ctx fs =
        fs ++ [zapUint64 "dd.trace_id" (TraceID ctx).1, zapUint64 "dd.span_id" (TraceID ctx).1] := by
  unfold setContextFields SpanID TraceID
  rcases h : assertUint64 (ctx.Value datadogTraceID) with ⟨v, ok⟩
  cases ok <;> simp

theorem toUint64_toInt64 (v : Nat) (h : v < 2 ^ 64) : toUint64 (toInt64 v) = v := by
  unfold toUint64 toInt64
  rw [Nat.mod_eq_of_lt h]
  split <;> omega


/-! ## The identifier carrier -/

/-- C1: for every context and every nonzero unsigned 64-bit `t`, reading the
trace ID back from `WithDatadogTraceId ctx t` returns `(t, true)`, whatever
layers the context already carries. -/
theorem TraceID_WithDatadogTraceId (ctx : Context) (t : Nat) (_ht : t ≠ 0)
    (_hb : t < 2 ^ 64) : TraceID (WithDatadogTraceId ctx t) = (t, true) := by
  simp [TraceID, WithDatadogTraceId, Context.Value, assertUint64]

theorem TraceID_WithDatadogTraceId_witness :
    TraceID (WithDatadogTraceId (WithDatadogSpanId (WithDatadogTraceId .background 7) 5) 9)
      = (9, true) :=
  TraceID_WithDatadogTraceId
    (WithDatadogSpanId (WithDatadogTraceId .background 7) 5) 9 (by decide) (by decide)

/-- C2, evaluated on the code: on the empty context, where neither identifier
has been set, `SpanID (WithDatadogTraceId ctx 1)` is `(1, true)` and not
`(0, false)`: the span lookup is satisfied by the value stored under the trace
key. -/
theorem SpanID_WithDatadogTraceId_background :
    Context.background.hasKey datadogTraceID = false ∧
    Context.background.hasKey datadogSpanID = false ∧
    SpanID (WithDatadogTraceId .background 1) = (1, true) ∧
    SpanID (WithDatadogTraceId .background 1) ≠ (0, false) := by
  decide

/-- C3, evaluated on the code: with `c = WithDatadogSpanId (WithDatadogTraceId
ctx 1) 2` on the empty context, `TraceID c` is `(1, true)` as claimed, while
`SpanID c` is `(1, true)` and not `(2, true)`, in either read order. -/
theorem roundTrip_background_1_2 :
    TraceID (WithDatadogSpanId (WithDatadogTraceId .background 1) 2) = (1, true) ∧
    SpanID (WithDatadogSpanId (WithDatadogTraceId .background 1) 2) = (1, true) ∧
    SpanID (WithDatadogSpanId (WithDatadogTraceId .background 1) 2) ≠ (2, true) := by
  decide

/-- C4: setting a span ID leaves the trace lookup untouched:
`TraceID (WithDatadogSpanId ctx s) = TraceID ctx` for every context and every
`s`, and the result is `(0, false)` when no layer of the context was stored
under the trace key. -/
theorem TraceID_WithDatadogSpanId (ctx : Context) (s : Nat) :
    TraceID (WithDatadogSpanId ctx s) = TraceID ctx ∧
    (ctx.hasKey datadogTraceID = false →
      TraceID (WithDatadogSpanId ctx s) = (0, false)) := by
  have h : TraceID (WithDatadogSpanId ctx s) = TraceID ctx := by
    simp [TraceID, WithDatadogSpanId, Context.Value, datadogSpanID_ne_datadogTraceID]
  refine ⟨h, fun hk => ?_⟩
  rw [h, TraceID, Value_eq_nil_of_hasKey_false ctx _ hk]
  rfl

theorem TraceID_WithDatadogSpanId_witness :
    TraceID (WithDatadogSpanId (.withCancel .background) 4) = (0, false) :=
  (TraceID_WithDatadogSpanId (.withCancel .background) 4).2 (by decide)

/-! ## The request adapter -/

/-- C5, evaluated on the code: for the request whose store holds trace 123 and
span 0 over the empty base context, the derived context returns
`TraceID = (123, true)` as claimed, while `SpanID` returns `(123, true)` and
not `(0, false)`. -/
theorem GinNewContextWithObservability_trace123_span0 :
    (GinContext.mk .background
        [("dd.trace_id", .uint64 123), ("dd.span_id", .uint64 0)]).Get "dd.trace_id"
      = some (.uint64 123) ∧
    (GinContext.mk .background
        [("dd.trace_id", .uint64 123), ("dd.span_id", .uint64 0)]).absentOrZero "dd.span_id" ∧
    GinNewContextWithObservability
        ⟨.background, [("dd.trace_id", .uint64 123), ("dd.span_id", .uint64 0)]⟩
      = WithDatadogTraceId .background 123 ∧
    TraceID (GinNewContextWithObservability
        ⟨.background, [("dd.trace_id", .uint64 123), ("dd.span_id", .uint64 0)]⟩)
      = (123, true) ∧
    SpanID (GinNewContextWithObservability
        ⟨.background, [("dd.trace_id", .uint64 123), ("dd.span_id", .uint64 0)]⟩)
      = (123, true) ∧
    SpanID (GinNewContextWithObservability
        ⟨.background, [("dd.trace_id", .uint64 123), ("dd.span_id", .uint64 0)]⟩)
      ≠ (0, false) := by
  decide

/-- C6: `GinNewContextWithObservability` never stores a zero.  An identifier
that is absent or exactly zero in the per-request store adds no layer (only the
other identifier can add one); when both are absent or zero the result is the
base request context itself, on which `TraceID` and `SpanID` both return
`(0, false)` if the base carries neither identifier; and every layer the
adapter adds holds a nonzero `uint64`. -/
theorem GinNewContextWithObservability_no_zero (c : GinContext) :
    (c.absentOrZero "dd.span_id" →
      GinNewContextWithObservability c =
        if c.GetUint64 "dd.trace_id" ≠ 0
        then WithDatadogTraceId c.Request (c.GetUint64 "dd.trace_id") else c.Request) ∧
    (c.absentOrZero "dd.trace_id" →
      GinNewContextWithObservability c =
        if c.GetUint64 "dd.span_id" ≠ 0
        then WithDatadogSpanId c.Request (c.GetUint64 "dd.span_id") else c.Request) ∧
    (c.absentOrZero "dd.span_id" → c.absentOrZero "dd.trace_id" →
      GinNewContextWithObservability c = c.Request ∧
      (c.Request.hasKey datadogTraceID = false → c.Request.hasKey datadogSpanID = false →
        TraceID (GinNewContextWithObservability c) = (0, false) ∧
        SpanID (GinNewContextWithObservability c) = (0, false))) ∧
    (∃ added, (GinNewContextWithObservability c).layers = added ++ c.Request.layers ∧
      ∀ kv ∈ added, ∃ n, n ≠ 0 ∧ kv.2 = .uint64 n) := by
  refine ⟨fun hs => ?_, fun ht => ?_, fun hs ht => ?_, ?_⟩
  · simp [GinNewContextWithObservability, GetUint64_eq_zero_of_absentOrZero c _ hs]
  · simp [GinNewContextWithObservability, GetUint64_eq_zero_of_absentOrZero c _ ht]
  · have hbase : GinNewContextWithObservability c = c.Request := by
      simp [GinNewContextWithObservability, GetUint64_eq_zero_of_absentOrZero c _ hs,
        GetUint64_eq_zero_of_absentOrZero c _ ht]
    refine ⟨hbase, fun hk _ => ?_⟩
    rw [hbase, TraceID, SpanID, Value_eq_nil_of_hasKey_false _ _ hk]
    exact ⟨rfl, rfl⟩
  · unfold GinNewContextWithObservability
    by_cases hs : c.GetUint64 "dd.span_id" = 0 <;>
      by_cases ht : c.GetUint64 "dd.trace_id" = 0
    · exact ⟨[], by simp [hs, ht], by simp⟩
    · exact ⟨[(datadogTraceID, .uint64 (c.GetUint64 "dd.trace_id"))],
        by simp [hs, ht, WithDatadogTraceId, Context.layers], by simpa using Nat.pos_of_ne_zero ht⟩
    · exact ⟨[(datadogSpanID, .uint64 (c.GetUint64 "dd.span_id"))],
        by simp [hs, ht, WithDatadogSpanId, Context.layers], by simpa using Nat.pos_of_ne_zero hs⟩
    · exact ⟨[(datadogTraceID, .uint64 (c.GetUint64 "dd.trace_id")),
          (datadogSpanID, .uint64 (c.GetUint64 "dd.span_id"))],
        by simp [hs, ht, WithDatadogSpanId, WithDatadogTraceId, Context.layers],
        by simpa using ⟨Nat.pos_of_ne_zero ht, Nat.pos_of_ne_zero hs⟩⟩

theorem GinNewContextWithObservability_no_zero_witness :
    GinNewContextWithObservability
        ⟨.background, [("dd.span_id", .uint64 0), ("user", .string "u")]⟩ = .background ∧
    TraceID (GinNewContextWithObservability
        ⟨.background, [("dd.span_id", .uint64 0), ("user", .string "u")]⟩) = (0, false) ∧
    SpanID (GinNewContextWithObservability
        ⟨.background, [("dd.span_id", .uint64 0), ("user", .string "u")]⟩) = (0, false) :=
  have h := (GinNewContextWithObservability_no_zero
    ⟨.background, [("dd.span_id", .uint64 0), ("user", .string "u")]⟩).2.2.1
      (by decide) (by decide)
  ⟨h.1, h.2 (by decide) (by decide)⟩

/-! ## The logging facade -/

/-- C7: each of the six severity operations hands the backend its own method,
the message unchanged, and the field list `setContextFields ctx fs`; that list
is `fs` followed by an extension whose keys are nothing, `dd.trace_id`,
`dd.span_id`, or `dd.trace_id` then `dd.span_id`. -/
theorem severityOps_delegate_setContextFields (ctx : Context) (msg : String)
    (fs : List Field) :
    severityOps.map (fun op => (op ctx msg fs).method)
      = [.Info, .Warn, .Debug, .Error, .Panic, .Fatal] ∧
    ∀ op ∈ severityOps,
      (op ctx msg fs).msg = msg ∧
      (op ctx msg fs).fields = setContextFields ctx fs ∧
      ∃ ext, (op ctx msg fs).fields = fs ++ ext ∧
        (ext.map Field.Key = [] ∨ ext.map Field.Key = ["dd.trace_id"] ∨
          ext.map Field.Key = ["dd.span_id"] ∨
          ext.map Field.Key = ["dd.trace_id", "dd.span_id"]) := by
  have hext : ∃ ext, setContextFields ctx fs = fs ++ ext ∧
      (ext.map Field.Key = [] ∨ ext.map Field.Key = ["dd.trace_id"] ∨
        ext.map Field.Key = ["dd.span_id"] ∨
        ext.map Field.Key = ["dd.trace_id", "dd.span_id"]) := by
    rcases setContextFields_cases ctx fs with ⟨_, h⟩ | ⟨_, h⟩
    · exact ⟨[], by simp [h], Or.inl rfl⟩
    · exact ⟨_, h, Or.inr (Or.inr (Or.inr rfl))⟩
  refine ⟨rfl, fun op hop => ?_⟩
  simp only [severityOps, List.mem_cons, List.mem_singleton, List.not_mem_nil, or_false] at hop
  rcases hop with h | h | h | h | h | h <;> subst h <;> exact ⟨rfl, rfl, hext⟩

theorem severityOps_delegate_setContextFields_witness :
    (Logger.Panic (WithDatadogTraceId .background 5) "boom"
        [zapUint64 "dd.trace_id" 1]).fields
      = setContextFields (WithDatadogTraceId .background 5) [zapUint64 "dd.trace_id" 1] :=
  ((severityOps_delegate_setContextFields (WithDatadogTraceId .background 5) "boom"
    [zapUint64 "dd.trace_id" 1]).2 Logger.Panic (by simp [severityOps])).2.1

/-- C8, evaluated on the code: on a context carrying trace ID 999 and no span
layer, with no caller fields, `Info` hands the backend a `dd.trace_id` field
holding 999 as claimed, and also a field keyed `dd.span_id` (holding 999),
which the claim excludes. -/
theorem Info_trace999_fields :
    (WithDatadogTraceId .background 999).hasKey datadogSpanID = false ∧
    (Logger.Info (WithDatadogTraceId .background 999) "request" []).fields
      = [zapUint64 "dd.trace_id" 999, zapUint64 "dd.span_id" 999] ∧
    (zapUint64 "dd.trace_id" 999).uint64Value = some 999 ∧
    (∃ f ∈ (Logger.Info (WithDatadogTraceId .background 999) "request" []).fields,
      f.Key = "dd.span_id") := by
  decide

/-- C9: on a context that carries neither a trace ID nor a span ID,
`TraceID ctx = (0, false)`, `setContextFields ctx fs = fs`, and `Info`
delegates exactly the caller's fields. -/
theorem setContextFields_of_no_identifier (ctx : Context) (msg : String)
    (fs : List Field) (ht : ctx.hasKey datadogTraceID = false)
    (_hs : ctx.hasKey datadogSpanID = false) :
    TraceID ctx = (0, false) ∧ setContextFields ctx fs = fs ∧
    Logger.Info ctx msg fs = { method := .Info, msg := msg, fields := fs } := by
  have h : TraceID ctx = (0, false) := by
    rw [TraceID, Value_eq_nil_of_hasKey_false ctx _ ht]
    rfl
  have hf : setContextFields ctx fs = fs := by
    rcases setContextFields_cases ctx fs with ⟨_, h2⟩ | ⟨h1, _⟩
    · exact h2
    · rw [h] at h1
      exact absurd h1 (by decide)
  exact ⟨h, hf, by simp [Logger.Info, hf]⟩

theorem setContextFields_of_no_identifier_witness :
    setContextFields (.withValue .background (.string "dd.trace_id") (.uint64 3))
        [zapUint64 "dd.span_id" 8]
      = [zapUint64 "dd.span_id" 8] :=
  (setContextFields_of_no_identifier
    (.withValue .background (.string "dd.trace_id") (.uint64 3)) "m"
    [zapUint64 "dd.span_id" 8] (by decide) (by decide)).2.1

/-- C10: in the code as written the span lookup reads the trace key:
`SpanID ctx = TraceID ctx` for every context; a layer added by
`WithDatadogSpanId` does not change what `SpanID` returns; and
`setContextFields` appends either nothing or both `dd.trace_id` and
`dd.span_id` built from one and the same value. -/
theorem SpanID_eq_TraceID (ctx : Context) :
    SpanID ctx = TraceID ctx ∧
    (∀ s, SpanID (WithDatadogSpanId ctx s) = SpanID ctx) ∧
    (∀ s, ctx.hasKey datadogTraceID = false →
      SpanID (WithDatadogSpanId ctx s) = (0, false)) ∧
    (∀ fs, setContextFields ctx fs = fs ∨
      ∃ v, TraceID ctx = (v, true) ∧ setContextFields ctx fs =
        fs ++ [zapUint64 "dd.trace_id" v, zapUint64 "dd.span_id" v]) := by
  have hspan : ∀ s, SpanID (WithDatadogSpanId ctx s) = SpanID ctx := fun s => by
    simp [SpanID, WithDatadogSpanId, Context.Value, datadogSpanID_ne_datadogTraceID]
  refine ⟨rfl, hspan, fun s hk => ?_, fun fs => ?_⟩
  · rw [hspan, SpanID, Value_eq_nil_of_hasKey_false ctx _ hk]
    rfl
  · rcases setContextFields_cases ctx fs with ⟨_, h⟩ | ⟨h1, h⟩
    · exact Or.inl h
    · exact Or.inr ⟨(TraceID ctx).1, by rw [← h1], h⟩

theorem SpanID_eq_TraceID_witness :
    SpanID (WithDatadogSpanId .background 6) = (0, false) :=
  (SpanID_eq_TraceID .background).2.2.1 6 (by decide)

end GoDatadog
